import Mathlib

/-!
Shallow embedding of `src/tweetstream/streamclasses.py` (BaseStream and its
variants) and proofs about it.

Modelling conventions:
* Python floats for timestamps/rates are modelled as `ℚ`; each embedded call
  takes the current value of `time.time()` as an explicit `now` parameter.
* `anyjson.deserialize` (an external library) is modelled as an oracle: every
  line arriving from the network carries both its raw bytes (a `String`) and
  its parse result (`none` = the library raises `ValueError`,
  `some v` = it returns the JSON value `v`).
* `requests.post` (an external library) is modelled as an oracle `Env.post`
  giving the outcome of the n-th post call: either a response (status code
  plus the stream of line events produced by `iter_lines()`) or a raised
  `requests` exception.  `requests.exceptions.HTTPError` is a distinct kind
  from network-level failures such as `requests.exceptions.ConnectionError`
  (in the requests library the latter is not a subclass of the former).
* The error taxonomy classes (`AuthenticationError`,
  `ReconnectImmediatelyError`, `ReconnectLinearlyError`,
  `ReconnectExponentiallyError`) live in the package `__init__`, which is not
  part of `src/`; they are modelled from the spec as four distinct error
  kinds, none of which is a subclass of `requests.exceptions.HTTPError` or of
  `socket.error`.
* `BaseStream.__iter__` is a Python generator.  Its resume position is part
  of the object state (`GenPos`).  Python generator semantics: an exception
  propagating out of the generator terminates it permanently, and every later
  `next()` call on it raises `StopIteration`.
-/

/-- A JSON value as produced by `anyjson.deserialize`.  (JSON numbers are
modelled as integers; their numeric value is irrelevant to every property
proved here — only the Python type of the decoded value matters.) -/
inductive JValue where
  | null : JValue
  | boolean : Bool → JValue
  | num : Int → JValue
  | str : String → JValue
  | arr : List JValue → JValue
  | obj : List (String × JValue) → JValue

/-- `l.isPrefixOf`-based substring test: does `s` contain `pat` as a
contiguous substring?  Models Python's `needle in haystack` for strings. -/
def hasSub (pat : List Char) : List Char → Bool
  | [] => pat.isEmpty
  | c :: cs => pat.isPrefixOf (c :: cs) || hasSub pat cs

/-- Python `"text" in s` for a string/bytes `s`: substring containment. -/
def strContainsText (s : String) : Bool :=
  hasSub "text".toList s.toList

/-- Python `"text" in tweet` for a decoded JSON value:
key membership for a dict, element membership for a list, substring test for
a string; for `None`, booleans and numbers Python raises `TypeError`
(modelled as `none`). -/
def pyInText : JValue → Option Bool
  | .obj fields => some (fields.any (fun kv => kv.1 == "text"))
  | .arr xs => some (xs.any (fun x => match x with
      | .str s => s == "text"
      | _ => false))
  | .str s => some (strContainsText s)
  | .null => none
  | .boolean _ => none
  | .num _ => none

/-- Whether a decoded JSON value is an object exposing the key `"text"`
(the spec's notion of "contains the primary payload key"). -/
def hasTextKey : JValue → Bool
  | .obj fields => fields.any (fun kv => kv.1 == "text")
  | _ => false

/-- One event produced by iterating `self.response.iter_lines()`:
either a line (raw bytes plus the `anyjson.deserialize` oracle result for
those bytes), or a `socket.error` raised by the transport at that point. -/
inductive LineEvent where
  | line : String → Option JValue → LineEvent
  | sockError : String → LineEvent

/-- A raised exception from the `requests` library during `requests.post`.
Only `httpError` is a `requests.exceptions.HTTPError`; `connectionError`
(network-level failure) and `timeoutError` are sibling kinds. -/
inductive RequestsExc where
  | httpError : String → RequestsExc
  | connectionError : String → RequestsExc
  | timeoutError : String → RequestsExc

/-- Outcome of one `requests.post` call: a response (status code and body
line events) or a raised exception. -/
inductive PostOutcome where
  | success : Nat → List LineEvent → PostOutcome
  | raises : RequestsExc → PostOutcome

/-- The error taxonomy of the package (`AuthenticationError`,
`ConnectionError` and the three reconnect errors are defined in the package
`__init__`, outside `src/`; modelled from the spec as distinct kinds, each
carrying its message). -/
inductive TSError where
  | authenticationError : String → TSError
  | connectionError : String → TSError
  | reconnectImmediatelyError : String → TSError
  | reconnectLinearlyError : String → TSError
  | reconnectExponentiallyError : String → TSError

/-- What can propagate out of an embedded call: a taxonomy error, an
uncaught `requests` exception, or an uncaught Python runtime error. -/
inductive Fault where
  | ts : TSError → Fault
  | uncaught : RequestsExc → Fault
  | pyTypeError : Fault
  | pyAttrError : Fault

/-- What `next()` hands to the caller: a parsed tweet (non-raw mode) or the
raw line (raw mode). -/
inductive Tweet where
  | parsed : JValue → Tweet
  | raw : String → Tweet

/-- Resume position of the `__iter__` generator: not yet started / at the
top of the `while True` loop, suspended inside the `for line in
iter_lines()` loop with the given events still pending, or terminated (an
exception propagated out; every later `next()` raises `StopIteration`). -/
inductive GenPos where
  | start : GenPos
  | inBody : List LineEvent → GenPos
  | dead : GenPos

/-- The mutable state of a `BaseStream` object.  Fields named after the
Python attributes (leading underscores dropped).  `response` holds the
remaining un-iterated body of the current response (`some []` once
`iter_lines()` has been consumed); `posts` counts `requests.post` calls so
the environment oracle can be indexed; `gen` is the `_iter` generator's
resume position. -/
structure StreamState where
  rate_ts : Option ℚ
  rate_cnt : Nat
  raw_mode : Bool
  timeout : Option ℚ
  rate_period : ℚ
  connected : Bool
  response : Option (List LineEvent)
  starttime : Option ℚ
  count : Nat
  rate : ℚ
  url : String
  posts : Nat
  gen : GenPos

/-- The environment: outcome of the n-th `requests.post` call. -/
structure Env where
  post : Nat → PostOutcome

def SampleStream.url : String := "https://stream.twitter.com/1/statuses/sample.json"

def UserStream.url : String := "https://userstream.twitter.com/1.1/user.json"

def FilterStream.url : String := "https://stream.twitter.com/1.1/statuses/filter.json"

/-- `BaseStream.__init__` (also creates the `_iter` generator, which runs no
body code until first resumed).  `classUrl` is the subclass's `url` class
attribute; `if url: self.url = url` uses Python truthiness, so an empty
override string leaves the class attribute in place. -/
def BaseStream.mk (classUrl : String) (raw : Bool) (timeout : Option ℚ)
    (url : Option String) : StreamState :=
  { rate_ts := none
    rate_cnt := 0
    raw_mode := raw
    timeout := timeout
    rate_period := 10
    connected := false
    response := none
    starttime := none
    count := 0
    rate := 0
    url := match url with
      | none => classUrl
      | some u => if u = "" then classUrl else u
    posts := 0
    gen := .start }

/-- `BaseStream.close`: sets `connected` to `False` (nothing else). -/
def close (s : StreamState) : StreamState :=
  { s with connected := false }

/-- `BaseStream.__exit__`: calls `close()`. -/
def exitScope (s : StreamState) : StreamState :=
  close s

/-- `if not x: x = time.time()` on an optional float attribute — Python
truthiness: `None` and `0.0` are falsy. -/
def pyOrSetNow (cur : Option ℚ) (now : ℚ) : Option ℚ :=
  match cur with
  | none => some now
  | some x => if x = 0 then some now else some x

/-- The `repr` of a requests response object, as interpolated by
`"%s: %s" % (self.url, self.response)`. -/
def respRepr (status : Nat) : String :=
  "<Response [" ++ toString status ++ "]>"

/-- The keyword arguments `BaseStream._init_conn` passes to `requests.post`:
`stream=True`, `auth`, `data` — and no `timeout` argument (the stored
`_timeout` attribute is never consulted), so the request is issued with the
requests-library default of no timeout. -/
structure Request where
  url : String
  stream : Bool
  data : Option (List (String × String))
  timeout : Option ℚ

/-- The request `_init_conn` issues for a given state and post data. -/
def issued_request (s : StreamState) (postdata : Option (List (String × String))) :
    Request :=
  { url := s.url, stream := true, data := postdata, timeout := none }

/-- `BaseStream._get_post_data`: returns `None`. -/
def BaseStream.get_post_data : Option (List (String × String)) := none

/-- `BaseStream._init_conn`, given the outcome of its `requests.post` call.
Returns the propagated fault (if any) and the updated object state.
The `try` block's `except` clause names only
`requests.exceptions.HTTPError`, so every other raised exception — the
taxonomy errors raised for 401/404 as well as non-HTTPError requests
exceptions — propagates past it. -/
def init_conn (out : PostOutcome) (now : ℚ) (s : StreamState) :
    Option Fault × StreamState :=
  let s := { s with posts := s.posts + 1 }
  match out with
  | .raises e =>
    match e with
    | .httpError m => (some (.ts (.reconnectExponentiallyError m)), s)
    | .connectionError m => (some (.uncaught (.connectionError m)), s)
    | .timeoutError m => (some (.uncaught (.timeoutError m)), s)
  | .success status body =>
    let s := { s with response := some body }
    if status = 401 then
      (some (.ts (.authenticationError "Could not authenticate with Twitter")), s)
    else if status = 404 then
      (some (.ts (.reconnectExponentiallyError (s.url ++ ": " ++ respRepr status))), s)
    else
      (none,
        { s with connected := true
                 starttime := pyOrSetNow s.starttime now
                 rate_ts := pyOrSetNow s.rate_ts now })

/-- Result of `_update_rate`: the updated state, or a raised Python error
(`TypeError` from `time.time() - None`, `ZeroDivisionError` from float
division by zero). -/
inductive RateResult where
  | ok : StreamState → RateResult
  | typeError : RateResult
  | zeroDivisionError : RateResult

/-- `BaseStream._update_rate`.  The subtraction
`rate_time = time.time() - self._rate_ts` is evaluated before the
`if not self._rate_ts` guard, so a `None` window start raises `TypeError`;
the guard's falsy test only ever fires for a `0.0` timestamp. -/
def update_rate (now : ℚ) (s : StreamState) : RateResult :=
  match s.rate_ts with
  | none => .typeError
  | some ts =>
    let rate_time := now - ts
    if ts = 0 ∨ rate_time > s.rate_period then
      if rate_time = 0 then .zeroDivisionError
      else .ok { s with
        rate := (s.rate_cnt : ℚ) / rate_time
        rate_cnt := 0
        rate_ts := some now }
    else .ok s

/-- Result of `next()`: yields a tweet, propagates a fault (the generator is
dead afterwards), raises `StopIteration` (generator already dead), or never
returns (the `while True` loop spins on an exhausted response). -/
inductive Outcome where
  | yields : Tweet → Outcome
  | raises : Fault → Outcome
  | stopIteration : Outcome
  | diverges : Outcome

/-- One step of `for line in self.response.iter_lines(): ...`:
either produce the call's outcome and new state, or report that the body is
exhausted (the `for` loop ends and control falls back to the `while` top). -/
inductive BodyStep where
  | result : Outcome → StreamState → BodyStep
  | exhausted : StreamState → BodyStep

/-- The body of the `for` loop in `__iter__`, resumed with the remaining
line events.  `if line:` skips empty keep-alive lines.  In raw mode the
tweet is the raw line; otherwise a failed parse runs `self.close()` and
raises `ReconnectImmediatelyError` (killing the generator).  The
`'text' in tweet` membership test then decides whether `count` and
`_rate_cnt` increment; on a non-container JSON value it raises `TypeError`.
A `socket.error` from the transport is caught by the `except socket.error`
clause around the loop and re-raised as `ReconnectImmediatelyError`
(without touching `connected`). -/
def iterBody (s : StreamState) : List LineEvent → BodyStep
  | [] => .exhausted s
  | .sockError m :: _ =>
    .result (.raises (.ts (.reconnectImmediatelyError ("Server disconnected: " ++ m))))
      { s with gen := .dead }
  | .line raw parsed :: rest =>
    if raw = "" then iterBody s rest
    else if s.raw_mode then
      let counted := strContainsText raw
      .result (.yields (.raw raw))
        { s with count := s.count + (if counted then 1 else 0)
                 rate_cnt := s.rate_cnt + (if counted then 1 else 0)
                 gen := .inBody rest }
    else
      match parsed with
      | none =>
        .result (.raises (.ts (.reconnectImmediatelyError ("Invalid data: " ++ raw))))
          { (close s) with gen := .dead }
      | some v =>
        match pyInText v with
        | none => .result (.raises .pyTypeError) { s with gen := .dead }
        | some counted =>
          .result (.yields (.parsed v))
            { s with count := s.count + (if counted then 1 else 0)
                     rate_cnt := s.rate_cnt + (if counted then 1 else 0)
                     gen := .inBody rest }

/-- The `for line in self.response.iter_lines()` loop of one `while`-loop
pass: iterating a `None` response raises `AttributeError`; otherwise the
body is consumed (`response` becomes `some []`) and the loop runs.
`inl` = the call returns with an outcome; `inr` = the body was exhausted
and control falls back to the `while` top with the given state. -/
def runResponse (s : StreamState) :
    (Outcome × StreamState) ⊕ StreamState :=
  match s.response with
  | none => .inl (.raises .pyAttrError, { s with gen := .dead })
  | some body =>
    match iterBody { s with response := some [] } body with
    | .result o s2 => .inl (o, s2)
    | .exhausted s2 => .inr s2

/-- One pass through the top of the `while True` loop in `__iter__`:
connect if disconnected (a connect fault kills the generator and
propagates), then run the `for` loop via `runResponse`. -/
def onePass (env : Env) (now : ℚ) (s : StreamState) :
    (Outcome × StreamState) ⊕ StreamState :=
  match (if s.connected then (none, s) else init_conn (env.post s.posts) now s :
      Option Fault × StreamState) with
  | (some f, s1) => .inl (.raises f, { s1 with gen := .dead })
  | (none, s1) => runResponse s1

/-- `BaseStream.next`: resume the `_iter` generator once.  A dead generator
raises `StopIteration`.  A generator suspended mid-body continues the `for`
loop.  After body exhaustion control returns to the `while` top; once a
successful pass has consumed the (now empty) response with `connected`
still true, the loop can never again reach a `yield` or a `return`, so the
call never returns (`diverges`): two passes suffice to detect this. -/
def next_tweet (env : Env) (now : ℚ) (s : StreamState) : Outcome × StreamState :=
  match s.gen with
  | .dead => (.stopIteration, s)
  | .inBody rest =>
    match iterBody s rest with
    | .result o s1 => (o, s1)
    | .exhausted s1 =>
      match onePass env now s1 with
      | .inl r => r
      | .inr s2 =>
        match onePass env now s2 with
        | .inl r => r
        | .inr s3 => (.diverges, s3)
  | .start =>
    match onePass env now s with
    | .inl r => r
    | .inr s2 =>
      match onePass env now s2 with
      | .inl r => r
      | .inr s3 => (.diverges, s3)

/-- `FilterStream._get_post_data`: each of `follow`, `locations`, `track`
contributes a comma-joined field exactly when the stored collection is
truthy (neither `None` nor empty); `follow` entries pass through `str()`. -/
def FilterStream.get_post_data (follow : Option (List Int))
    (locations : Option (List String)) (track : Option (List String)) :
    List (String × String) :=
  (match follow with
    | some (f :: fs) => [("follow", String.intercalate "," ((f :: fs).map toString))]
    | _ => [])
  ++ (match locations with
    | some (l :: ls) => [("locations", String.intercalate "," (l :: ls))]
    | _ => [])
  ++ (match track with
    | some (t :: ts) => [("track", String.intercalate "," (t :: ts))]
    | _ => [])

/-! ## Shared concrete states and environments used by witnesses -/

/-- A freshly constructed non-raw `SampleStream`. -/
def sample0 : StreamState := BaseStream.mk SampleStream.url false none none

/-- A freshly constructed raw-mode `SampleStream`. -/
def sampleRaw0 : StreamState := BaseStream.mk SampleStream.url true none none

/-- Environment whose every post answers 200 with a single unparseable line. -/
def envBadLine : Env := ⟨fun _ => .success 200 [.line "notjson" none]⟩

/-- Environment whose every post answers 200 and then the transport raises a
`socket.error` mid-iteration. -/
def envSockErr : Env := ⟨fun _ => .success 200 [.sockError "Connection reset by peer"]⟩

/-- Environment whose every post answers 200 with the single line
`"a text"` — valid JSON whose decoded value is a *string* containing the
substring `text`, not an object with a `text` key. -/
def envStrLine : Env := ⟨fun _ => .success 200 [.line "\"a text\"" (some (.str "a text"))]⟩

/-- The state carried by a `BodyStep`, whichever way the loop ended. -/
def BodyStep.state : BodyStep → StreamState
  | .result _ s => s
  | .exhausted s => s

/-- The state carried by the result of `onePass`, whichever branch. -/
def passState : (Outcome × StreamState) ⊕ StreamState → StreamState
  | .inl r => r.2
  | .inr s => s

/-- A connected stream whose generator is suspended mid-body just before a
transport `socket.error`. -/
def midSock : StreamState :=
  { sample0 with connected := true, response := some []
                 gen := .inBody [.sockError "Connection reset by peer"] }

/-- A connected stream whose generator is suspended mid-body just before an
unparseable line. -/
def midBad : StreamState :=
  { sample0 with connected := true, response := some []
                 gen := .inBody [.line "notjson" none] }

/-- A connected stream whose generator is suspended mid-body just before a
line whose JSON decoding is the string `"a text"`. -/
def midStr : StreamState :=
  { sample0 with connected := true, response := some []
                 gen := .inBody [.line "\"a text\"" (some (.str "a text"))] }

/-- A connected raw-mode stream whose generator is suspended mid-body just
before a line that is not valid JSON but contains the bytes `text`. -/
def midRaw : StreamState :=
  { sampleRaw0 with connected := true, response := some []
                    gen := .inBody [.line "not json but text" none] }

/-! ## Claims -/

/-- Claim C2 (refuted at this input, exhibiting the code bug): in
`_init_conn`, the `except` clause names only `requests.exceptions.HTTPError`,
so a network-level `requests.exceptions.ConnectionError` raised by
`requests.post` propagates to the caller unclassified (outside the four
taxonomy kinds), while a genuine `HTTPError` is indeed wrapped as
`ReconnectExponentiallyError`. -/
theorem C2_connection_error_escapes :
    (init_conn (.raises (.connectionError "Connection refused")) 0 sample0).1
      = some (.uncaught (.connectionError "Connection refused")) ∧
    (init_conn (.raises (.httpError "502 Server Error")) 0 sample0).1
      = some (.ts (.reconnectExponentiallyError "502 Server Error")) := by
  constructor <;> rfl

/-- Claim C4 (refuted, exhibiting the code bug): the constructor stores the
configured timeout in `_timeout`, but the request `_init_conn` issues to
`requests.post` never carries it — its timeout field is always `none`
(the requests default: no timeout), for every state and every configured
value. -/
theorem C4_timeout_never_applied (t : ℚ) (s : StreamState)
    (d : Option (List (String × String))) :
    (BaseStream.mk SampleStream.url false (some t) none).timeout = some t ∧
    (issued_request s d).timeout = none := by
  constructor <;> rfl

/-- Claim C5 (refuted at the no-window-start input, exhibiting the code
bug): `_update_rate` evaluates `time.time() - self._rate_ts` before its
`not self._rate_ts` guard, so when no window start has been recorded
(`_rate_ts is None` — as after construction) the call raises `TypeError`
instead of computing the rate; the claimed recompute/keep behaviour does
hold once a window start is a positive timestamp. -/
theorem C5_update_rate_none_crash :
    update_rate 5 sample0 = .typeError ∧ sample0.rate_ts = none := by
  constructor <;> rfl

/-- Claim C8: `_init_conn` on a 401 response raises the authentication
failure error, and on a 404 response raises `ReconnectExponentiallyError`
(neither is caught by the `except requests.exceptions.HTTPError` clause);
on both paths `connected` is left exactly as it was — in particular it is
still `false` for a freshly constructed stream. -/
theorem C8_status_401_404 (now : ℚ) (s : StreamState) (body : List LineEvent) :
    (init_conn (.success 401 body) now s).1
      = some (.ts (.authenticationError "Could not authenticate with Twitter")) ∧
    ((init_conn (.success 401 body) now s).2).connected = s.connected ∧
    (init_conn (.success 404 body) now s).1
      = some (.ts (.reconnectExponentiallyError (s.url ++ ": " ++ respRepr 404))) ∧
    ((init_conn (.success 404 body) now s).2).connected = s.connected ∧
    sample0.connected = false := by
  refine ⟨rfl, rfl, rfl, rfl, rfl⟩

/-- Claim C9: the Filter variant's payload contains each of the keys
`follow`, `locations`, `track` exactly when the corresponding constructor
collection is non-`None` and non-empty, valued as the comma-joined string
(with `str()` applied to follow entries); and the scenario
`track=["foo","bar"], follow=[], locations=None` produces exactly
`{"track": "foo,bar"}`. -/
theorem C9_filter_post_data (follow : Option (List Int))
    (locations track : Option (List String)) :
    FilterStream.get_post_data (some []) none (some ["foo", "bar"])
      = [("track", "foo,bar")] ∧
    (FilterStream.get_post_data follow locations track).lookup "follow"
      = (match follow with
        | some (f :: fs) => some (String.intercalate "," ((f :: fs).map toString))
        | _ => none) ∧
    (FilterStream.get_post_data follow locations track).lookup "locations"
      = (match locations with
        | some (l :: ls) => some (String.intercalate "," (l :: ls))
        | _ => none) ∧
    (FilterStream.get_post_data follow locations track).lookup "track"
      = (match track with
        | some (t :: ts) => some (String.intercalate "," (t :: ts))
        | _ => none) := by
  refine ⟨rfl, ?_, ?_, ?_⟩ <;>
    rcases follow with _ | ⟨_ | ⟨f, fs⟩⟩ <;>
    rcases locations with _ | ⟨_ | ⟨l, ls⟩⟩ <;>
    rcases track with _ | ⟨_ | ⟨t, ts⟩⟩ <;>
    simp [FilterStream.get_post_data, List.lookup]

/-- Claim C1 (amended): in non-raw mode, a pulled line that fails JSON
parsing makes `next()` close the connection (`connected` becomes `false`)
and fail with `ReconnectImmediatelyError` carrying the offending raw line —
but the exception propagating out of the `__iter__` generator terminates it
permanently: every subsequent `next()` raises `StopIteration` without
re-invoking `_init_conn` (the post counter never moves again) and can never
yield another record. -/
theorem C1_parse_fault_kills_generator (env : Env) (now : ℚ) (s : StreamState)
    (raw : String) (rest : List LineEvent)
    (hgen : s.gen = .start) (hconn : s.connected = false) (hraw : s.raw_mode = false)
    (hpost : env.post s.posts = .success 200 (.line raw none :: rest))
    (hne : raw ≠ "") :
    (next_tweet env now s).1
      = .raises (.ts (.reconnectImmediatelyError ("Invalid data: " ++ raw))) ∧
    ((next_tweet env now s).2).connected = false ∧
    ∀ env2 now2,
      (next_tweet env2 now2 (next_tweet env now s).2).1 = .stopIteration ∧
      ((next_tweet env2 now2 (next_tweet env now s).2).2).posts
        = ((next_tweet env now s).2).posts := by
  obtain ⟨rts, rcnt, rm, tmo, rp, conn, resp, st, cnt, rt, u, ps, g⟩ := s
  dsimp only at hgen hconn hraw hpost
  subst hgen; subst hconn; subst hraw
  simp [next_tweet, onePass, runResponse, init_conn, hpost, iterBody, hne, close]

/-- Claim C1 witness: the amended behaviour at a concrete fresh stream and
a one-bad-line environment. -/
theorem C1_parse_fault_witness :
    (next_tweet envBadLine 0 sample0).1
      = .raises (.ts (.reconnectImmediatelyError ("Invalid data: " ++ "notjson"))) ∧
    ((next_tweet envBadLine 0 sample0).2).connected = false ∧
    (next_tweet envBadLine 0 (next_tweet envBadLine 0 sample0).2).1
      = .stopIteration := by
  have h := C1_parse_fault_kills_generator envBadLine 0 sample0 "notjson" []
    rfl rfl rfl rfl (by decide)
  exact ⟨h.1, h.2.1, (h.2.2 envBadLine 0).1⟩

/-- Claim C1 counterexample: after the parse fault the next pull raises
`StopIteration`, re-invokes no connect (`posts` is unchanged) and yields
nothing — the iteration protocol IS permanently ended, contrary to the
claim. -/
theorem C1_no_reconnect_after_fault :
    (next_tweet envBadLine 0 sample0).1
      = .raises (.ts (.reconnectImmediatelyError "Invalid data: notjson")) ∧
    (next_tweet envBadLine 0 (next_tweet envBadLine 0 sample0).2).1
      = .stopIteration ∧
    ((next_tweet envBadLine 0 (next_tweet envBadLine 0 sample0).2).2).posts
      = ((next_tweet envBadLine 0 sample0).2).posts ∧
    ¬ ∃ t, (next_tweet envBadLine 0 (next_tweet envBadLine 0 sample0).2).1
      = .yields t := by
  refine ⟨rfl, rfl, rfl, ?_⟩
  rintro ⟨t, h⟩
  exact Outcome.noConfusion h

/-- Claim C3 (amended): a transport-level `socket.error` raised
mid-iteration is re-raised as `ReconnectImmediatelyError` with `connected`
left exactly as it was (the `except socket.error` path never calls
`close()`), while the JSON-parse fault path does set `connected` to
`false`; so not every pulling fault leaves the stream flagged
disconnected. -/
theorem C3_fault_connected_flag (env : Env) (now : ℚ) (s t : StreamState)
    (m raw : String) (lrest lrest2 : List LineEvent)
    (hs : s.gen = .inBody (.sockError m :: lrest))
    (ht : t.gen = .inBody (.line raw none :: lrest2))
    (htraw : t.raw_mode = false) (hne : raw ≠ "") :
    (next_tweet env now s).1
      = .raises (.ts (.reconnectImmediatelyError ("Server disconnected: " ++ m))) ∧
    ((next_tweet env now s).2).connected = s.connected ∧
    (next_tweet env now t).1
      = .raises (.ts (.reconnectImmediatelyError ("Invalid data: " ++ raw))) ∧
    ((next_tweet env now t).2).connected = false := by
  obtain ⟨rts, rcnt, rm, tmo, rp, conn, resp, st, cnt, rt, u, ps, g⟩ := s
  obtain ⟨rts2, rcnt2, rm2, tmo2, rp2, conn2, resp2, st2, cnt2, rt2, u2, ps2, g2⟩ := t
  dsimp only at hs ht htraw
  subst hs; subst ht; subst htraw
  simp [next_tweet, iterBody, hne, close]

/-- Claim C3 witness: both fault paths at concrete mid-body states. -/
theorem C3_connected_flag_witness :
    (next_tweet envSockErr 0 midSock).1
      = .raises (.ts (.reconnectImmediatelyError
          ("Server disconnected: " ++ "Connection reset by peer"))) ∧
    ((next_tweet envSockErr 0 midSock).2).connected = midSock.connected ∧
    ((next_tweet envSockErr 0 midBad).2).connected = false := by
  have h := C3_fault_connected_flag envSockErr 0 midSock midBad
    "Connection reset by peer" "notjson" [] [] rfl rfl rfl (by decide)
  exact ⟨h.1, h.2.1, h.2.2.2⟩

/-- Claim C3 counterexample: from a fresh stream, a socket error raised by
the transport during the first pull propagates as
`ReconnectImmediatelyError` while `connected` is still `true` — the claim's
"connected flag is false at the moment the typed error propagates" fails. -/
theorem C3_sock_error_leaves_connected :
    (next_tweet envSockErr 0 sample0).1
      = .raises (.ts (.reconnectImmediatelyError
          ("Server disconnected: " ++ "Connection reset by peer"))) ∧
    ((next_tweet envSockErr 0 sample0).2).connected = true := by
  exact ⟨rfl, rfl⟩

/-- Claim C7 (amended): in non-raw mode a non-empty line that parses to a
JSON value `v` is yielded and consumed (the generator moves past it, so it
is never re-delivered); `count` increments by exactly 1 iff Python's
membership test `'text' in v` answers true — which for a JSON *object* is
exactly "the object contains the key `text`", but for a string is a
substring test, for an array element membership, and for null/booleans/
numbers the test raises `TypeError`. -/
theorem C7_json_line_counting (env : Env) (now : ℚ) (s : StreamState)
    (raw : String) (v : JValue) (rest : List LineEvent)
    (hs : s.gen = .inBody (.line raw (some v) :: rest))
    (hraw : s.raw_mode = false) (hne : raw ≠ "") :
    (∀ b, pyInText v = some b →
      (next_tweet env now s).1 = .yields (.parsed v) ∧
      ((next_tweet env now s).2).count = s.count + (if b then 1 else 0) ∧
      ((next_tweet env now s).2).gen = .inBody rest) ∧
    (pyInText v = none → (next_tweet env now s).1 = .raises .pyTypeError) ∧
    (∀ fields, v = .obj fields →
      pyInText v = some (fields.any (fun kv => kv.1 == "text"))) := by
  obtain ⟨rts, rcnt, rm, tmo, rp, conn, resp, st, cnt, rt, u, ps, g⟩ := s
  dsimp only at hs hraw
  subst hs; subst hraw
  refine ⟨?_, ?_, ?_⟩
  · intro b hb
    simp [next_tweet, iterBody, hne, hb]
  · intro hb
    simp [next_tweet, iterBody, hne, hb]
  · intro fields hv
    subst hv
    rfl

/-- Claim C7 witness: an object line `{"text": ...}` is counted; the same
machinery at a concrete mid-body state. -/
theorem C7_json_line_witness :
    (next_tweet envStrLine 0 midStr).1 = .yields (.parsed (.str "a text")) ∧
    ((next_tweet envStrLine 0 midStr).2).count = midStr.count + 1 := by
  have h := C7_json_line_counting envStrLine 0 midStr "\"a text\"" (.str "a text") []
    rfl rfl (by decide)
  have h2 := (h.1 true (by decide))
  exact ⟨h2.1, h2.2.1⟩

/-- Claim C7 counterexample: from a fresh stream, the valid JSON line
`"a text"` decodes to a *string* with no keys at all, yet `count`
increments — the claimed "increments iff the decoded object contains the
`text` key" is false. -/
theorem C7_string_line_counted :
    (next_tweet envStrLine 0 sample0).1 = .yields (.parsed (.str "a text")) ∧
    ((next_tweet envStrLine 0 sample0).2).count = sample0.count + 1 ∧
    hasTextKey (.str "a text") = false := by
  refine ⟨rfl, by decide, rfl⟩

/-- Claim C10: in raw mode every non-empty pulled line is yielded as raw
bytes, and `count` and `_rate_cnt` increment exactly when the raw bytes
contain the substring `text` — independent of the line's JSON parse status
(the parse oracle `p` is arbitrary and unused). -/
theorem C10_raw_mode_substring (env : Env) (now : ℚ) (s : StreamState)
    (raw : String) (p : Option JValue) (rest : List LineEvent)
    (hs : s.gen = .inBody (.line raw p :: rest))
    (hraw : s.raw_mode = true) (hne : raw ≠ "") :
    (next_tweet env now s).1 = .yields (.raw raw) ∧
    ((next_tweet env now s).2).count
      = s.count + (if strContainsText raw then 1 else 0) ∧
    ((next_tweet env now s).2).rate_cnt
      = s.rate_cnt + (if strContainsText raw then 1 else 0) ∧
    ((next_tweet env now s).2).gen = .inBody rest := by
  obtain ⟨rts, rcnt, rm, tmo, rp, conn, resp, st, cnt, rt, u, ps, g⟩ := s
  dsimp only at hs hraw
  subst hs; subst hraw
  simp [next_tweet, iterBody, hne]

/-- Claim C10 witness: a raw line that is not valid JSON but contains the
bytes `text` is yielded unchanged and counted. -/
theorem C10_raw_mode_witness :
    strContainsText "not json but text" = true ∧
    (next_tweet envBadLine 0 midRaw).1 = .yields (.raw "not json but text") ∧
    ((next_tweet envBadLine 0 midRaw).2).count = midRaw.count + 1 := by
  have h := C10_raw_mode_substring envBadLine 0 midRaw "not json but text" none []
    rfl rfl (by decide)
  refine ⟨by decide, h.1, ?_⟩
  rw [h.2.1]
  decide

/-- Helper: the `for` loop body never touches `rate` (it only ever bumps
`count`/`_rate_cnt` and moves the generator). -/
theorem iterBody_rate (s : StreamState) (l : List LineEvent) :
    ((iterBody s l).state).rate = s.rate := by
  induction l generalizing s with
  | nil => rfl
  | cons e rest ih =>
    cases e with
    | sockError m => rfl
    | line raw parsed =>
      by_cases hr : raw = ""
      · simp [iterBody, hr, ih]
      · by_cases hm : s.raw_mode = true
        · simp [iterBody, hr, hm, BodyStep.state]
        · cases parsed with
          | none => simp [iterBody, hr, hm, BodyStep.state, close]
          | some v =>
            cases hpv : pyInText v <;>
              simp [iterBody, hr, hm, hpv, BodyStep.state]

/-- Helper: the `for` loop body never decreases `_rate_cnt`. -/
theorem iterBody_rate_cnt (s : StreamState) (l : List LineEvent) :
    s.rate_cnt ≤ ((iterBody s l).state).rate_cnt := by
  induction l generalizing s with
  | nil => exact le_refl _
  | cons e rest ih =>
    cases e with
    | sockError m => exact le_refl _
    | line raw parsed =>
      by_cases hr : raw = ""
      · simpa [iterBody, hr] using ih s
      · by_cases hm : s.raw_mode = true
        · simp [iterBody, hr, hm, BodyStep.state]
        · cases parsed with
          | none => simp [iterBody, hr, hm, BodyStep.state, close]
          | some v =>
            cases hpv : pyInText v <;>
              simp [iterBody, hr, hm, hpv, BodyStep.state]

/-- Helper: `_init_conn` never touches `rate` or `_rate_cnt`. -/
theorem init_conn_rate (out : PostOutcome) (now : ℚ) (s : StreamState) :
    ((init_conn out now s).2).rate = s.rate ∧
    ((init_conn out now s).2).rate_cnt = s.rate_cnt := by
  cases out with
  | raises e => cases e <;> exact ⟨rfl, rfl⟩
  | success status body =>
    by_cases h1 : status = 401
    · simp [init_conn, h1]
    · by_cases h4 : status = 404 <;> simp [init_conn, h1, h4]

/-- Helper: the `for`-loop runner never touches `rate` and never decreases
`_rate_cnt`. -/
theorem runResponse_rate (s : StreamState) :
    (passState (runResponse s)).rate = s.rate ∧
    s.rate_cnt ≤ (passState (runResponse s)).rate_cnt := by
  unfold runResponse
  cases hresp : s.response with
  | none => exact ⟨rfl, le_refl _⟩
  | some body =>
    dsimp only
    have h1 := iterBody_rate { s with response := some [] } body
    have h2 := iterBody_rate_cnt { s with response := some [] } body
    cases hib : iterBody { s with response := some [] } body with
    | result o s2 =>
      rw [hib] at h1 h2
      exact ⟨h1, h2⟩
    | exhausted s2 =>
      rw [hib] at h1 h2
      exact ⟨h1, h2⟩

/-- Helper: one pass of the `while` loop never touches `rate` and never
decreases `_rate_cnt`. -/
theorem onePass_rate (env : Env) (now : ℚ) (s : StreamState) :
    (passState (onePass env now s)).rate = s.rate ∧
    s.rate_cnt ≤ (passState (onePass env now s)).rate_cnt := by
  unfold onePass
  cases hc : s.connected with
  | true =>
    simp only [if_true]
    exact runResponse_rate s
  | false =>
    simp only [Bool.false_eq_true, if_false]
    have hi := init_conn_rate (env.post s.posts) now s
    cases hini : init_conn (env.post s.posts) now s with
    | mk fault s1 =>
      rw [hini] at hi
      cases fault with
      | some f => exact ⟨hi.1, hi.2.ge⟩
      | none =>
        have hr := runResponse_rate s1
        exact ⟨hr.1.trans hi.1, hi.2.ge.trans hr.2⟩

/-- Helper: `next()` never touches `rate` and never decreases `_rate_cnt`. -/
theorem next_tweet_rate (env : Env) (now : ℚ) (s : StreamState) :
    ((next_tweet env now s).2).rate = s.rate ∧
    s.rate_cnt ≤ ((next_tweet env now s).2).rate_cnt := by
  unfold next_tweet
  cases hg : s.gen with
  | dead => exact ⟨rfl, le_refl _⟩
  | start =>
    dsimp only
    have h1 := onePass_rate env now s
    cases hop : onePass env now s with
    | inl r =>
      rw [hop] at h1
      exact h1
    | inr s2 =>
      rw [hop] at h1
      dsimp only
      have h2 := onePass_rate env now s2
      cases hop2 : onePass env now s2 with
      | inl r =>
        rw [hop2] at h2
        exact ⟨h2.1.trans h1.1, h1.2.trans h2.2⟩
      | inr s3 =>
        rw [hop2] at h2
        exact ⟨h2.1.trans h1.1, h1.2.trans h2.2⟩
  | inBody rest =>
    dsimp only
    have hb1 := iterBody_rate s rest
    have hb2 := iterBody_rate_cnt s rest
    cases hib : iterBody s rest with
    | result o s1 =>
      rw [hib] at hb1 hb2
      exact ⟨hb1, hb2⟩
    | exhausted s1 =>
      rw [hib] at hb1 hb2
      dsimp only
      have h1 := onePass_rate env now s1
      cases hop : onePass env now s1 with
      | inl r =>
        rw [hop] at h1
        exact ⟨h1.1.trans hb1, hb2.trans h1.2⟩
      | inr s2 =>
        rw [hop] at h1
        dsimp only
        have h2 := onePass_rate env now s2
        cases hop2 : onePass env now s2 with
        | inl r =>
          rw [hop2] at h2
          exact ⟨(h2.1.trans h1.1).trans hb1, (hb2.trans h1.2).trans h2.2⟩
        | inr s3 =>
          rw [hop2] at h2
          exact ⟨(h2.1.trans h1.1).trans hb1, (hb2.trans h1.2).trans h2.2⟩

/-- Claim C6: no public operation ever invokes `_update_rate`:
construction sets `rate := 0`, and `next()`, `_init_conn`, `close()` and
the scope exit all leave `rate` exactly unchanged — so the public `rate`
attribute keeps its constructed value 0 for the object's entire lifetime —
while no operation ever resets `_rate_cnt` (only `_update_rate` would):
`next()` only ever grows it. -/
theorem C6_rate_never_updated :
    (∀ u raw tmo ov, (BaseStream.mk u raw tmo ov).rate = 0) ∧
    (∀ env now s, ((next_tweet env now s).2).rate = s.rate) ∧
    (∀ out now s, ((init_conn out now s).2).rate = s.rate) ∧
    (∀ s, (close s).rate = s.rate) ∧
    (∀ s, (exitScope s).rate = s.rate) ∧
    (∀ env now s, s.rate_cnt ≤ ((next_tweet env now s).2).rate_cnt) := by
  refine ⟨fun u raw tmo ov => rfl,
    fun env now s => (next_tweet_rate env now s).1,
    fun out now s => (init_conn_rate out now s).1,
    fun s => rfl, fun s => rfl,
    fun env now s => (next_tweet_rate env now s).2⟩
